import Mathlib

/-!
Shallow embedding of the Moha-Milonmela photo-frame editor.

The embedding translates the repository's core logic into Lean:
* the state types of `types.ts` (`PhotoState`, `FrameState`, `INITIAL_PHOTO_STATE`);
* the canvas-sizing effect, the drawing routine, the photo-layer transform and
  the pointer-drag handlers of `components/CanvasEditor.tsx`;
* the file-selection, reset and slider handlers of `App.tsx`;
* the caption service of `services/gemini.ts`.

JavaScript numbers are modelled as rationals (`ℚ`); the real-valued canvas
transform semantics (rotation by radians) uses `ℝ`.  Asynchronous image loads
are modelled by an explicit `LoadOutcome` parameter: the DOM either fires
`onload` with a decoded bitmap or fails (and the code installs no `onerror`
handler on the cached images, so a failure changes nothing).
-/

/-- A decoded bitmap (an `HTMLImageElement` that finished loading), reduced to
the data the editor reads from it: its natural pixel dimensions. -/
structure Image where
  width : ℚ
  height : ℚ
deriving DecidableEq, Repr

/-- PhotoState from `types.ts`: the photo source and its transform. -/
structure PhotoState where
  src : Option String
  x : ℚ
  y : ℚ
  scale : ℚ
  rotation : ℚ
deriving DecidableEq, Repr

/-- FrameState from `types.ts`: the frame source and its natural dimensions
(absent until a frame image has decoded). -/
structure FrameState where
  src : Option String
  width : Option ℚ
  height : Option ℚ
deriving DecidableEq, Repr

/-- INITIAL_PHOTO_STATE from `constants` (`src/unnamed/part_000`). -/
def INITIAL_PHOTO_STATE : PhotoState :=
  { src := none, x := 0, y := 0, scale := 1, rotation := 0 }

/-- Canvas-sizing effect of `CanvasEditor.tsx` (lines 53-77): default
1080×1080; when both frame dimensions are present and truthy (nonzero), fit
the frame's aspect ratio with the long edge at 1080. -/
def computeCanvasSize (frame : FrameState) : ℚ × ℚ :=
  match frame.width, frame.height with
  | some w, some h =>
    if w ≠ 0 ∧ h ≠ 0 then
      let r := w / h
      if w > h then (1080, 1080 / r) else (1080 * r, 1080)
    else (1080, 1080)
  | _, _ => (1080, 1080)

/-- Reset handler of `App.tsx` (Reset Position button): zero the offsets,
scale back to 1, rotation to 0, spreading the previous state otherwise. -/
def resetPhoto (p : PhotoState) : PhotoState :=
  { p with x := 0, y := 0, scale := 1, rotation := 0 }

/-- Claim C2: canvas dimensions follow the frame's aspect ratio with the long
edge at 1080 (1080/ratio or 1080*ratio), default to 1080×1080 when a dimension
is unknown; 1600×1200 gives (1080, 810), 900×1800 gives (540, 1080). -/
def CanvasSizeSpec (w h : ℚ) (src : Option String) : Prop :=
  (computeCanvasSize { src := src, width := some w, height := some h }
      = if w > h then ((1080 : ℚ), 1080 / (w / h)) else (1080 * (w / h), 1080)) ∧
  (∀ fr : FrameState, fr.width = none ∨ fr.height = none →
      computeCanvasSize fr = (1080, 1080)) ∧
  computeCanvasSize { src := none, width := some 1600, height := some 1200 }
      = (1080, 810) ∧
  computeCanvasSize { src := none, width := some 900, height := some 1800 }
      = (540, 1080) ∧
  computeCanvasSize { src := none, width := none, height := none } = (1080, 1080)

/-- C2: for positive known frame dimensions the canvas is (1080, 1080/(w/h))
when w > h and (1080*(w/h), 1080) otherwise; with a dimension unknown it is
1080×1080; in particular 1600×1200 ↦ (1080, 810), 900×1800 ↦ (540, 1080), and
no dimensions ↦ (1080, 1080). -/
theorem computeCanvasSize_from_frame (w h : ℚ) (src : Option String)
    (hw : 0 < w) (hh : 0 < h) : CanvasSizeSpec w h src := by
  refine ⟨?_, ?_, by norm_num [computeCanvasSize], by norm_num [computeCanvasSize], rfl⟩
  · simp [computeCanvasSize, hw.ne', hh.ne']
  · intro fr hfr
    rcases fr with ⟨fsrc, fw, fh⟩
    rcases hfr with h1 | h1 <;> simp_all [computeCanvasSize]

/-- Witness for C2 at the concrete frame 1600×1200. -/
theorem computeCanvasSize_from_frame_witness : CanvasSizeSpec 1600 1200 none :=
  computeCanvasSize_from_frame 1600 1200 none (by norm_num) (by norm_num)

/-- C5: reset produces (0, 0, 1, 0) for the transform and keeps the bitmap
handle `src` (the only other component of the photo state) unchanged. -/
theorem resetPhoto_resets_transform_keeps_src (p : PhotoState) :
    (resetPhoto p).x = 0 ∧ (resetPhoto p).y = 0 ∧ (resetPhoto p).scale = 1 ∧
    (resetPhoto p).rotation = 0 ∧ (resetPhoto p).src = p.src :=
  ⟨rfl, rfl, rfl, rfl, rfl⟩

/-- Result of `canvas.getBoundingClientRect()`, reduced to the field the drag
handlers read: the displayed width on screen. -/
structure Rect where
  width : ℚ
deriving DecidableEq, Repr

/-- State of `CanvasEditor` relevant to the pointer handlers: the `isDragging`
and `dragStart` React state, the photo state owned by `App`, the cached photo
bitmap (`photoImg`), and the canvas pixel width. -/
structure EditorState where
  isDragging : Bool
  dragStart : ℚ × ℚ
  photo : PhotoState
  photoImg : Option Image
  canvasWidth : ℚ
deriving DecidableEq, Repr

/-- handlePointerDown of `CanvasEditor.tsx` (lines 123-129): bail out when the
bounding rect is unavailable, otherwise start dragging from the pointer
position.  The photo bitmap is not consulted. -/
def handlePointerDown (rect? : Option Rect) (clientX clientY : ℚ)
    (s : EditorState) : EditorState :=
  match rect? with
  | none => s
  | some _ => { s with isDragging := true, dragStart := (clientX, clientY) }

/-- handlePointerMove of `CanvasEditor.tsx` (lines 131-150): while dragging,
scale the display-pixel delta from the last reference point by
`canvas.width / rect.width`, add it to the offsets, and reset the reference
point to the current pointer position. -/
def handlePointerMove (rect? : Option Rect) (clientX clientY : ℚ)
    (s : EditorState) : EditorState :=
  if s.isDragging = false then s else
  match rect? with
  | none => s
  | some rect =>
    let sensitivity := s.canvasWidth / rect.width
    let dx := (clientX - s.dragStart.1) * sensitivity
    let dy := (clientY - s.dragStart.2) * sensitivity
    { s with
      photo := { s.photo with x := s.photo.x + dx, y := s.photo.y + dy },
      dragStart := (clientX, clientY) }

/-- handlePointerUp of `CanvasEditor.tsx` (lines 152-154). -/
def handlePointerUp (s : EditorState) : EditorState :=
  { s with isDragging := false }

/-- Editor state for the drag scenario of the spec: canvas pixel width 1000,
a loaded photo whose offsets start at (x0, y0). -/
def demoEditor (x0 y0 : ℚ) : EditorState :=
  { isDragging := false
    dragStart := (0, 0)
    photo := { src := some "photo", x := x0, y := y0, scale := 1, rotation := 0 }
    photoImg := some { width := 800, height := 600 }
    canvasWidth := 1000 }

/-- Displayed rect for the drag scenario: the canvas is shown 500 pixels wide,
so the sensitivity is 1000 / 500 = 2. -/
def demoRect : Rect := { width := 500 }

/-- Concrete dragging state for the witness of C1. -/
def demoDragging : EditorState :=
  { demoEditor 0 0 with isDragging := true, dragStart := (100, 100) }

/-- Claim C1: a move while dragging adds the pointer delta scaled by
`canvasWidth / rect.width` to each offset and resets the reference point; in
the concrete scenario (sensitivity 2, down at (100,100), moves to (110,115)
then (105,115)) the offset deltas are (+20,+30) then (-10,0), each relative to
the previous move point. -/
def DragMoveSpec (s : EditorState) (rect : Rect) (cX cY x0 y0 : ℚ) : Prop :=
  ((handlePointerMove (some rect) cX cY s).photo.x
      = s.photo.x + (cX - s.dragStart.1) * (s.canvasWidth / rect.width) ∧
   (handlePointerMove (some rect) cX cY s).photo.y
      = s.photo.y + (cY - s.dragStart.2) * (s.canvasWidth / rect.width) ∧
   (handlePointerMove (some rect) cX cY s).dragStart = (cX, cY)) ∧
  (let s1 := handlePointerDown (some demoRect) 100 100 (demoEditor x0 y0)
   let s2 := handlePointerMove (some demoRect) 110 115 s1
   let s3 := handlePointerMove (some demoRect) 105 115 s2
   s2.photo.x = x0 + 20 ∧ s2.photo.y = y0 + 30 ∧
   s3.photo.x = s2.photo.x - 10 ∧ s3.photo.y = s2.photo.y)

/-- C1: during a drag every move adds the scaled delta to the offsets and
resets the reference point, so the spec's example sequence produces the deltas
(+20,+30) and then (-10,0). -/
theorem drag_move_incremental_delta (s : EditorState) (rect : Rect)
    (cX cY x0 y0 : ℚ) (hd : s.isDragging = true) : DragMoveSpec s rect cX cY x0 y0 := by
  constructor
  · simp [handlePointerMove, hd]
  · refine ⟨?_, ?_, ?_, ?_⟩ <;>
      simp [handlePointerDown, handlePointerMove, demoEditor, demoRect] <;> ring

/-- Witness for C1 at the concrete dragging state. -/
theorem drag_move_incremental_delta_witness :
    DragMoveSpec demoDragging demoRect 110 115 0 0 :=
  drag_move_incremental_delta demoDragging demoRect 110 115 0 0 rfl

/-- Editor state with no photo bitmap loaded and the transform at its initial
values. -/
def noPhotoEditor : EditorState :=
  { isDragging := false
    dragStart := (0, 0)
    photo := INITIAL_PHOTO_STATE
    photoImg := none
    canvasWidth := 100 }

/-- Displayed rect of width 100, giving sensitivity 100 / 100 = 1. -/
def unitRect : Rect := { width := 100 }

/-- Counterexample to C4 as stated: with no photo bitmap loaded
(`photoImg = none`) and offsets at their initial values, the drag sequence
down at (0,0), move to (1,0), up leaves offsetX = 1, not its initial value 0:
`handlePointerDown` never consults the photo bitmap. -/
theorem drag_without_photo_changes_offset :
    noPhotoEditor.photoImg = none ∧
    noPhotoEditor.photo.x = INITIAL_PHOTO_STATE.x ∧
    noPhotoEditor.photo.y = INITIAL_PHOTO_STATE.y ∧
    (handlePointerUp (handlePointerMove (some unitRect) 1 0
        (handlePointerDown (some unitRect) 0 0 noPhotoEditor))).photo.x
      ≠ INITIAL_PHOTO_STATE.x := by
  refine ⟨rfl, rfl, rfl, ?_⟩
  norm_num [handlePointerDown, handlePointerMove, handlePointerUp,
    noPhotoEditor, unitRect, INITIAL_PHOTO_STATE]

/-- C4 amended: the pointer handlers never consult the photo bitmap, so with
no photo bitmap loaded a drag start is still accepted (whenever the bounding
rect is available) and each move still adds the scaled delta to the offsets;
offsets are not guaranteed to stay at their initial values. -/
theorem drag_ignores_missing_photo (s : EditorState) (rect : Rect)
    (cX cY : ℚ) (himg : s.photoImg = none) (hd : s.isDragging = true) :
    (handlePointerDown (some rect) cX cY s).isDragging = true ∧
    (handlePointerMove (some rect) cX cY s).photo.x
      = s.photo.x + (cX - s.dragStart.1) * (s.canvasWidth / rect.width) ∧
    (handlePointerMove (some rect) cX cY s).photo.y
      = s.photo.y + (cY - s.dragStart.2) * (s.canvasWidth / rect.width) := by
  refine ⟨rfl, ?_, ?_⟩ <;> simp [handlePointerMove, hd]

/-- Concrete dragging state with no photo bitmap, for the witness of C4. -/
def noPhotoDragging : EditorState :=
  { noPhotoEditor with isDragging := true }

/-- Witness for the amended C4 at a concrete no-photo dragging state. -/
theorem drag_ignores_missing_photo_witness :
    (handlePointerDown (some unitRect) 1 0 noPhotoDragging).isDragging = true ∧
    (handlePointerMove (some unitRect) 1 0 noPhotoDragging).photo.x
      = noPhotoDragging.photo.x
        + (1 - noPhotoDragging.dragStart.1) * (noPhotoDragging.canvasWidth / unitRect.width) ∧
    (handlePointerMove (some unitRect) 1 0 noPhotoDragging).photo.y
      = noPhotoDragging.photo.y
        + (0 - noPhotoDragging.dragStart.2) * (noPhotoDragging.canvasWidth / unitRect.width) :=
  drag_ignores_missing_photo noPhotoDragging unitRect 1 0 rfl rfl

/-- Outcome of one asynchronous image load: the DOM either fires `onload`
with a decoded bitmap, or the load fails (the element fires `onerror`, or
never completes). -/
inductive LoadOutcome where
  | success (img : Image)
  | failure
deriving DecidableEq, Repr

/-- Photo-loading effect of `CanvasEditor.tsx` (lines 41-50): a present source
starts a load whose `onload` replaces the cached bitmap; the effect installs
no `onerror` handler, so a failed load leaves the previous cached bitmap; a
cleared source resets the cache to `null`. -/
def loadPhotoEffect (src : Option String) (outcome : LoadOutcome)
    (prev : Option Image) : Option Image :=
  match src with
  | none => none
  | some _ =>
    match outcome with
    | LoadOutcome.success img => some img
    | LoadOutcome.failure => prev

/-- Frame-loading effect of `CanvasEditor.tsx` (lines 28-38): same shape as
the photo effect (no `onerror` handler either). -/
def loadFrameEffect (src : Option String) (outcome : LoadOutcome)
    (prev : Option Image) : Option Image :=
  match src with
  | none => none
  | some _ =>
    match outcome with
    | LoadOutcome.success img => some img
    | LoadOutcome.failure => prev

/-- Frame branch of handleFileChange in `App.tsx` (lines 54-65): `setFrame`
runs only in the probe image's `onload`, so a file whose image fails to decode
leaves the frame state untouched. -/
def applyFrameFileLoad (result : String) (outcome : LoadOutcome)
    (prev : FrameState) : FrameState :=
  match outcome with
  | LoadOutcome.success img =>
    { src := some result, width := some img.width, height := some img.height }
  | LoadOutcome.failure => prev

/-- C6: a failed bitmap load never discards previously loaded state: after
photo A loads and a load of photo B fails the cached (hence composited) photo
bitmap is still A; a failed frame load leaves the cached frame bitmap, the
frame state with its natural dimensions, and therefore the computed canvas
dimensions unchanged. -/
theorem failed_load_keeps_previous_state (a b r : String) (imgA : Image)
    (prevImg prevFrameImg : Option Image) (prevFrame : FrameState) :
    loadPhotoEffect (some b) LoadOutcome.failure
        (loadPhotoEffect (some a) (LoadOutcome.success imgA) prevImg) = some imgA ∧
    loadFrameEffect (some r) LoadOutcome.failure prevFrameImg = prevFrameImg ∧
    applyFrameFileLoad r LoadOutcome.failure prevFrame = prevFrame ∧
    computeCanvasSize (applyFrameFileLoad r LoadOutcome.failure prevFrame)
        = computeCanvasSize prevFrame :=
  ⟨rfl, rfl, rfl, rfl⟩

/-- Photo branch of handleFileChange in `App.tsx` (lines 43-69): a truthy
file-reader result immediately installs the new source over the initial
transform; the photo branch involves no image decode at all (the bitmap is
decoded later, by the `CanvasEditor` effect). -/
def handlePhotoFileLoad (result : String) (prev : PhotoState) : PhotoState :=
  if result = "" then prev
  else { INITIAL_PHOTO_STATE with src := some result }

/-- C10: selecting a new photo file resets the whole transform to
(0, 0, 1, 0) while installing the new source, discarding any prior
adjustments; the update does not depend on the previous state nor on any
decode outcome (the handler takes none). -/
theorem new_photo_resets_transform (prev : PhotoState) (result : String)
    (h : result ≠ "") :
    handlePhotoFileLoad result prev
      = { src := some result, x := 0, y := 0, scale := 1, rotation := 0 } := by
  simp [handlePhotoFileLoad, h, INITIAL_PHOTO_STATE]

/-- Witness for C10: selecting a photo over a fully adjusted previous state. -/
theorem new_photo_resets_transform_witness :
    handlePhotoFileLoad "data-url"
        { src := some "old", x := 5, y := -7, scale := 2, rotation := 90 }
      = { src := some "data-url", x := 0, y := 0, scale := 1, rotation := 0 } :=
  new_photo_resets_transform
    { src := some "old", x := 5, y := -7, scale := 2, rotation := 90 }
    "data-url" (by decide)

/-- One 2D-context drawing command issued by `draw` in `CanvasEditor.tsx`
(lines 80-103): clearing, filling with a style, drawing the photo layer under
its transform (the save/translate/rotate/scale/drawImage/restore block), or
drawing an image stretched to a destination rectangle. -/
inductive DrawCmd where
  | clearRect (x y w h : ℚ)
  | fillRect (style : String) (x y w h : ℚ)
  | drawPhoto (img : Image) (p : PhotoState)
  | drawImageRect (img : Image) (x y w h : ℚ)
deriving DecidableEq, Repr

/-- Draw routine of `CanvasEditor.tsx` (lines 80-103) as the ordered list of
commands it issues: clear, fill white, then the photo layer when a photo
bitmap is cached, then the frame stretched over the whole canvas when a frame
bitmap is cached. -/
def draw (photoImg frameImg : Option Image) (p : PhotoState)
    (cw ch : ℚ) : List DrawCmd :=
  [DrawCmd.clearRect 0 0 cw ch, DrawCmd.fillRect "#ffffff" 0 0 cw ch]
    ++ (match photoImg with
        | some img => [DrawCmd.drawPhoto img p]
        | none => [])
    ++ (match frameImg with
        | some img => [DrawCmd.drawImageRect img 0 0 cw ch]
        | none => [])

/-- C7: every render first clears and fills the whole surface opaque white at
the canvas dimensions; a present frame bitmap is drawn last, stretched to
exactly (0, 0, width, height) whatever its own dimensions; with no photo and
no frame the output is just the blank white surface. -/
theorem draw_white_first_frame_last_blank (photoImg frameImg : Option Image)
    (p : PhotoState) (cw ch : ℚ) :
    List.take 2 (draw photoImg frameImg p cw ch)
        = [DrawCmd.clearRect 0 0 cw ch, DrawCmd.fillRect "#ffffff" 0 0 cw ch] ∧
    (∀ f : Image, frameImg = some f →
        (draw photoImg frameImg p cw ch).getLast?
          = some (DrawCmd.drawImageRect f 0 0 cw ch)) ∧
    (photoImg = none → frameImg = none →
        draw photoImg frameImg p cw ch
          = [DrawCmd.clearRect 0 0 cw ch, DrawCmd.fillRect "#ffffff" 0 0 cw ch]) := by
  refine ⟨?_, ?_, ?_⟩
  · cases photoImg <;> cases frameImg <;> rfl
  · intro f hf
    subst hf
    cases photoImg <;> rfl
  · intro hp hf
    subst hp
    subst hf
    rfl

/-- One 2D-context transform operation, as `drawPhotoLayer` issues them. -/
inductive CtxOp where
  | translate (tx ty : ℝ)
  | rotate (angle : ℝ)
  | scale (sx sy : ℝ)

/-- Semantics of one context operation on a point of the current local
coordinate system, following the canvas 2D specification: `translate` shifts,
`rotate` applies the (clockwise-positive) rotation matrix, `scale` multiplies
each axis. -/
noncomputable def applyOp : CtxOp → ℝ × ℝ → ℝ × ℝ
  | CtxOp.translate tx ty, (px, py) => (px + tx, py + ty)
  | CtxOp.rotate a, (px, py) =>
      (px * Real.cos a - py * Real.sin a, px * Real.sin a + py * Real.cos a)
  | CtxOp.scale sx sy, (px, py) => (sx * px, sy * py)

/-- Device point of a local point under a sequence of context operations
issued in source order: the transform issued first applies last to the local
point (canvas transforms compose by right multiplication). -/
noncomputable def applyOps (ops : List CtxOp) (q : ℝ × ℝ) : ℝ × ℝ :=
  ops.foldr applyOp q

/-- Transform sequence of drawPhotoLayer in `CanvasEditor.tsx` (lines
106-115): translate to canvas center plus offset, rotate by degrees converted
to radians, scale uniformly. -/
noncomputable def drawPhotoLayerOps (p : PhotoState) (cw ch : ℝ) : List CtxOp :=
  [CtxOp.translate (cw / 2 + (p.x : ℝ)) (ch / 2 + (p.y : ℝ)),
   CtxOp.rotate ((p.rotation : ℝ) * Real.pi / 180),
   CtxOp.scale (p.scale : ℝ) (p.scale : ℝ)]

/-- Local destination of the bitmap's top-left corner in drawPhotoLayer:
`ctx.drawImage(img, -img.width / 2, -img.height / 2)`. -/
noncomputable def drawImageDestLocal (img : Image) : ℝ × ℝ :=
  (-(img.width : ℝ) / 2, -(img.height : ℝ) / 2)

/-- Local coordinates of the drawn bitmap's own center. -/
noncomputable def drawnCenterLocal (img : Image) : ℝ × ℝ :=
  ((drawImageDestLocal img).1 + (img.width : ℝ) / 2,
   (drawImageDestLocal img).2 + (img.height : ℝ) / 2)

/-- C3: the photo compositor issues translate, then rotate (by
rotation·π/180), then scale, in that order; applying that sequence means
scaling first, then rotating, then translating the local point; and the
bitmap's own center lands exactly on (width/2 + offsetX, height/2 + offsetY). -/
theorem drawPhotoLayer_transform_order (p : PhotoState) (img : Image)
    (cw ch : ℝ) :
    drawPhotoLayerOps p cw ch
      = [CtxOp.translate (cw / 2 + (p.x : ℝ)) (ch / 2 + (p.y : ℝ)),
         CtxOp.rotate ((p.rotation : ℝ) * Real.pi / 180),
         CtxOp.scale (p.scale : ℝ) (p.scale : ℝ)] ∧
    (∀ q : ℝ × ℝ, applyOps (drawPhotoLayerOps p cw ch) q
        = applyOp (CtxOp.translate (cw / 2 + (p.x : ℝ)) (ch / 2 + (p.y : ℝ)))
            (applyOp (CtxOp.rotate ((p.rotation : ℝ) * Real.pi / 180))
              (applyOp (CtxOp.scale (p.scale : ℝ) (p.scale : ℝ)) q))) ∧
    applyOps (drawPhotoLayerOps p cw ch) (drawnCenterLocal img)
      = (cw / 2 + (p.x : ℝ), ch / 2 + (p.y : ℝ)) := by
  refine ⟨rfl, fun q => rfl, ?_⟩
  have hc : drawnCenterLocal img = ((0 : ℝ), (0 : ℝ)) := by
    simp [drawnCenterLocal, drawImageDestLocal]
    constructor <;> ring
  rw [hc]
  simp [applyOps, drawPhotoLayerOps, applyOp]

/-- Clamping a value into [lo, hi]. -/
def clampValue (lo hi v : ℚ) : ℚ := max lo (min hi v)

/-- Modelled value sanitization of an HTML range input with attributes `min`,
`max`, `step`: the browser keeps the element's value inside [minV, maxV] and
snapped to the step grid anchored at minV (the nearest allowed value), so the
string handed to `onChange` always parses to such a number.  The sliders in
`App.tsx` (lines 231-256) rely on this; their handlers store
`parseFloat(e.target.value)` unchanged. -/
def rangeInputValue (minV maxV stepV v : ℚ) : ℚ :=
  minV + stepV * ((round ((clampValue minV maxV v - minV) / stepV) : ℤ) : ℚ)

/-- Scale-slider handler of `App.tsx` (lines 231-239): range input with
min 0.1, max 4, step 0.1. -/
def setScaleFromSlider (v : ℚ) (p : PhotoState) : PhotoState :=
  { p with scale := rangeInputValue (1 / 10) 4 (1 / 10) v }

/-- Rotation-slider handler of `App.tsx` (lines 248-256): range input with
min -180, max 180, step 1. -/
def setRotationFromSlider (v : ℚ) (p : PhotoState) : PhotoState :=
  { p with rotation := rangeInputValue (-180) 180 1 v }

/-- Range-input sanitization keeps the value within [minV, maxV] whenever the
step grid reaches maxV exactly (maxV = minV + stepV·N). -/
theorem rangeInputValue_bounds (minV maxV stepV v : ℚ) (hs : 0 < stepV)
    (N : ℕ) (hN : maxV = minV + stepV * N) :
    minV ≤ rangeInputValue minV maxV stepV v ∧
    rangeInputValue minV maxV stepV v ≤ maxV := by
  have hN0 : (0 : ℚ) ≤ (N : ℚ) := Nat.cast_nonneg N
  have hle : minV ≤ maxV := by nlinarith
  have h1 : minV ≤ clampValue minV maxV v := le_max_left _ _
  have h2 : clampValue minV maxV v ≤ maxV := max_le hle (min_le_left _ _)
  set x : ℚ := (clampValue minV maxV v - minV) / stepV with hx
  have hx0 : 0 ≤ x := div_nonneg (by linarith) hs.le
  have hxN : x ≤ (N : ℚ) := by
    rw [hx, div_le_iff hs]
    nlinarith
  have hr0 : (0 : ℤ) ≤ round x := by
    rw [round_eq]
    exact Int.le_floor.mpr (by push_cast; linarith)
  have hrN : round x ≤ (N : ℤ) := by
    have hlt : round x < (N : ℤ) + 1 := by
      rw [round_eq]
      refine Int.floor_lt.mpr ?_
      push_cast
      linarith
    omega
  have hr0q : (0 : ℚ) ≤ ((round x : ℤ) : ℚ) := by exact_mod_cast hr0
  have hrNq : ((round x : ℤ) : ℚ) ≤ (N : ℚ) := by exact_mod_cast hrN
  constructor
  · have : 0 ≤ stepV * ((round x : ℤ) : ℚ) := mul_nonneg hs.le hr0q
    simp only [rangeInputValue]
    rw [← hx]
    linarith
  · have : stepV * ((round x : ℤ) : ℚ) ≤ stepV * (N : ℚ) :=
      mul_le_mul_of_nonneg_left hrNq hs.le
    simp only [rangeInputValue]
    rw [← hx]
    linarith

/-- C8: for every slider input value the resulting scale lies in [0.1, 4]
(hence is positive) and the resulting rotation lies in [-180, 180]; the
boundary sanitization never lets a non-positive scale or an out-of-range
rotation through. -/
theorem slider_inputs_bounded (v w : ℚ) (p : PhotoState) :
    0 < (setScaleFromSlider v p).scale ∧
    1 / 10 ≤ (setScaleFromSlider v p).scale ∧
    (setScaleFromSlider v p).scale ≤ 4 ∧
    -180 ≤ (setRotationFromSlider w p).rotation ∧
    (setRotationFromSlider w p).rotation ≤ 180 := by
  have hs := rangeInputValue_bounds (1 / 10) 4 (1 / 10) v (by norm_num) 39 (by norm_num)
  have hr := rangeInputValue_bounds (-180) 180 1 w (by norm_num) 360 (by norm_num)
  exact ⟨lt_of_lt_of_le (by norm_num) hs.1, hs.1, hs.2, hr.1, hr.2⟩

/-- Outcome of the captioning request to the generative-AI endpoint: either a
response carrying an optional text, or a thrown error (missing network,
rejected credential, and so on). -/
inductive ApiOutcome where
  | success (text : Option String)
  | error
deriving DecidableEq, Repr

/-- Base64 cleanup in `services/gemini.ts` (line 18):
`base64Image.split(',')[1] || base64Image` strips a data-URL metadata prefix
when one is present.  It only shapes the request body, which the modelled
`ApiOutcome` abstracts. -/
def cleanBase64 (base64Image : String) : String :=
  match (base64Image.splitOn ",").get? 1 with
  | some s => if s = "" then base64Image else s
  | none => base64Image

/-- generateCaptionForPhoto of `services/gemini.ts` (lines 10-42): with a
missing (empty) API key return the mock caption; otherwise issue the request
and return `response.text?.trim() || "Memories forever"`, catching any thrown
error with the fixed caption "Beautiful Day".  Total by construction: every
path returns a string. -/
def generateCaptionForPhoto (apiKey base64Image : String)
    (outcome : ApiOutcome) : String :=
  if apiKey = "" then "Capture the moment!"
  else
    match outcome with
    | ApiOutcome.error => "Beautiful Day"
    | ApiOutcome.success t =>
      match t with
      | none => "Memories forever"
      | some s => if s.trim = "" then "Memories forever" else s.trim

/-- Failure cases of the caption operation: missing credential, thrown
error, or a response whose text is absent or trims to the empty string. -/
def captionFallbackCase (apiKey : String) (o : ApiOutcome) : Bool :=
  apiKey == "" ||
    match o with
    | ApiOutcome.error => true
    | ApiOutcome.success none => true
    | ApiOutcome.success (some s) => s.trim == ""

/-- Word counter: number of maximal runs of non-space characters. -/
def countWordsAux : List Char → Bool → Nat
  | [], _ => 0
  | c :: rest, inWord =>
    if c = ' ' then countWordsAux rest false
    else (if inWord then 0 else 1) + countWordsAux rest true

/-- Word count of a string. -/
def countWords (s : String) : Nat := countWordsAux s.toList false

/-- C9: on every failure case (missing credential, thrown error, absent or
empty response text) the caption operation returns one of three fixed
fallback strings, each of at most six words; it never propagates an error
(the function is total and String-valued on every input). -/
theorem caption_total_fallback (apiKey base64Image : String) (o : ApiOutcome)
    (h : captionFallbackCase apiKey o = true) :
    generateCaptionForPhoto apiKey base64Image o
        ∈ (["Capture the moment!", "Beautiful Day", "Memories forever"] : List String) ∧
    countWords (generateCaptionForPhoto apiKey base64Image o) ≤ 6 := by
  by_cases hk : apiKey = ""
  · constructor <;> simp [generateCaptionForPhoto, hk] <;> decide
  · rcases o with t | _
    · rcases t with _ | s
      · constructor <;> simp [generateCaptionForPhoto, hk] <;> decide
      · have hs : s.trim = "" := by
          simp [captionFallbackCase, hk] at h
          exact h
        constructor <;> simp [generateCaptionForPhoto, hk, hs] <;> decide
    · constructor <;> simp [generateCaptionForPhoto, hk] <;> decide

/-- Witness for C9: a thrown request error with a present key falls back to
the fixed caption. -/
theorem caption_total_fallback_witness :
    generateCaptionForPhoto "key" "photo-bytes" ApiOutcome.error
        ∈ (["Capture the moment!", "Beautiful Day", "Memories forever"] : List String) ∧
    countWords (generateCaptionForPhoto "key" "photo-bytes" ApiOutcome.error) ≤ 6 :=
  caption_total_fallback "key" "photo-bytes" ApiOutcome.error (by decide)
